import Mathlib

/-!
Verification development for the YPrompt provider layer.

This file gives a shallow embedding of the adaptive-retry OpenAI adapters
(`OpenAIProvider.ts`, `OpenAIResponsesProvider.ts`), the drawing-service
response normalization (`openaiDrawingService.ts`) and the playground
display-text balancing (`PlaygroundApp.js`), together with theorems about
the behaviour those sources implement.

Modelling conventions:
- JS strings are Lean `String`s (lists of characters); JS string methods
  (`includes`, `trim`, `toLowerCase`, ...) are modelled by executable helpers
  defined below.
- JS runtime values produced by `JSON.parse` are modelled by the `Json`
  inductive; `undefined` (a missing property, a failed optional chain) is
  modelled by `Option Json = none`, and JS truthiness by `Json.truthy`.
- `JSON.parse` itself is a JS builtin, not repository code; functions that
  call it take a `jsonParse : String → Option Json` argument, where `none`
  models a parse exception (always caught by the surrounding `try`).
- The HTTP transport is modelled by an oracle `Nat → HttpResponse` giving the
  upstream response to each successive attempt of one `callAPI` invocation.
- Thrown JS errors are modelled with `Except`.
-/

/-! ## JS string primitives -/

/-- Character-list prefix test: `hasPrefixChars pat l` is true when `pat` is a
prefix of `l`. -/
def hasPrefixChars : List Char → List Char → Bool
  | [], _ => true
  | _ :: _, [] => false
  | a :: as, b :: bs => a == b && hasPrefixChars as bs

/-- Character-list substring test: true when `pat` occurs contiguously in the
list. -/
def hasInfixChars (pat : List Char) : List Char → Bool
  | [] => pat.isEmpty
  | c :: rest => hasPrefixChars pat (c :: rest) || hasInfixChars pat rest

/-- Models JS `s.includes(pat)`. -/
def strIncludes (s pat : String) : Bool :=
  hasInfixChars pat.data s.data

/-- Models JS `s.startsWith(pre)`. -/
def jsStartsWith (s pre : String) : Bool :=
  hasPrefixChars pre.data s.data

/-- Models JS `s.toUpperCase()` (character-wise, for the ASCII text the
sources compare). -/
def jsToUpper (s : String) : String :=
  String.mk (s.data.map Char.toUpper)

/-- Models JS `s.toLowerCase()` (character-wise, for the ASCII text the
sources compare). -/
def jsToLower (s : String) : String :=
  String.mk (s.data.map Char.toLower)

/-- Whitespace trim on a character list: drop whitespace from the front, then
from the back. -/
def trimChars (l : List Char) : List Char :=
  ((l.dropWhile Char.isWhitespace).reverse.dropWhile Char.isWhitespace).reverse

/-- Models JS `s.trim()` (for the ASCII whitespace the sources care about). -/
def jsTrim (s : String) : String :=
  String.mk (trimChars s.data)

/-- True when the string's last character is whitespace (used to state the
boundary condition of the trim inside `mergeSystemMessages`). -/
def endsInWhitespace (s : String) : Bool :=
  match s.data.getLast? with
  | some c => c.isWhitespace
  | none => false

/-- Models JS `s.replace(/\/+$/, '')`: remove every trailing slash. -/
def dropTrailingSlashes (s : String) : String :=
  String.mk (s.data.reverse.dropWhile (· == '/')).reverse

/-- Models the JS template-literal rendering of a possibly-absent string
(`undefined` prints as the text "undefined"). -/
def jsTemplate (o : Option String) : String :=
  match o with
  | some s => s
  | none => "undefined"

/-- JS truthiness of a possibly-absent string (`undefined` and `''` are
falsy). -/
def optStrTruthy (o : Option String) : Bool :=
  match o with
  | some s => s != ""
  | none => false

/-! ## JS runtime values (results of `JSON.parse`) -/

/-- A JS value as produced by `JSON.parse`. Numbers are modelled as integers:
the translated code never computes with them, it only tests truthiness and
strict equality against string literals. -/
inductive Json where
  | null
  | bool (b : Bool)
  | num (n : Int)
  | str (s : String)
  | arr (elems : List Json)
  | obj (fields : List (String × Json))

/-- Property access `j.k` / `j?.k`: `none` models `undefined` (missing key or
non-object receiver). -/
def Json.getField : Json → String → Option Json
  | .obj fields, k => (fields.find? (fun f => f.1 == k)).map (fun f => f.2)
  | _, _ => none

/-- Index access `j[i]` / `j?.[i]` for the array case; `none` models
`undefined`. -/
def Json.getIdx : Json → Nat → Option Json
  | .arr xs, i => xs[i]?
  | _, _ => none

/-- JS truthiness of a value: `null`, `false`, `0` and `''` are falsy; every
object and array is truthy. -/
def Json.truthy : Json → Bool
  | .null => false
  | .bool b => b
  | .num n => n != 0
  | .str s => s != ""
  | .arr _ => true
  | .obj _ => true

/-- JS truthiness of a possibly-`undefined` value. -/
def optTruthy (o : Option Json) : Bool :=
  match o with
  | some j => j.truthy
  | none => false

/-! ## Neutral message model (services/ai/types) -/

/-- Modelled from the spec: attachments are opaque per-message payloads
(an inline image carrying a mime type and base64 data); the
`OpenAIAttachmentHandler` that converts them to wire content parts is outside
the translated sources, so that conversion is passed to the encoders as a
function argument `conv`. -/
structure Attachment where
  mimeType : String
  data : String
deriving DecidableEq

/-- The value stored under `image_url` of a content part: either a bare string
or an object `{url}`. -/
inductive ImageUrlVal where
  | str (s : String)
  | obj (url : String)
deriving DecidableEq

/-- A wire content part (`MessageContent` in the sources): a `type` tag plus
the optional fields the translated code reads. -/
structure MessageContent where
  type : String
  text : Option String := none
  image_url : Option ImageUrlVal := none
deriving DecidableEq

/-- The `content` field of a `ChatMessage`: a plain string or an array of
content parts. -/
inductive MsgContent where
  | str (s : String)
  | parts (ps : List MessageContent)
deriving DecidableEq

/-- Vendor-neutral chat message. `attachments` is optional in the sources; an
absent array behaves exactly like an empty one, so it is modelled as a
list. -/
structure ChatMessage where
  role : String
  content : MsgContent
  attachments : List Attachment := []
deriving DecidableEq

/-- Optional generation controls (`APICallParams`). Numeric controls are
modelled as rationals (the code only copies them into the body). -/
structure APICallParams where
  temperature : Option ℚ := none
  topP : Option ℚ := none
  maxTokens : Option ℚ := none
  frequencyPenalty : Option ℚ := none
  presencePenalty : Option ℚ := none
  reasoningEffort : Option String := none
deriving DecidableEq

/-- The two-value enum of max-token parameter names used by the Completions
adapter. -/
inductive ParamName where
  | max_tokens
  | max_completion_tokens
deriving DecidableEq

/-- One upstream HTTP response: success flag plus the JSON body
(`await response.json().catch(() => ({}))` already folded in — an unparsable
error body is simply `Json.obj []`). -/
structure HttpResponse where
  ok : Bool
  json : Json

/-! ## OpenAIProvider (services/ai/providers/OpenAIProvider.ts) -/

namespace OpenAIProvider

/-- `stringifyMessageContent`: a plain string content is returned as is; an
array keeps the text parts whose text is truthy, joined with a newline. -/
def stringifyMessageContent (m : ChatMessage) : String :=
  match m.content with
  | .str s => s
  | .parts ps =>
      String.intercalate "\n"
        ((ps.filter (fun p => p.type == "text" && optStrTruthy p.text)).map
          (fun p => p.text.getD ""))

/-- The merged system text computed inside `mergeSystemMessages` (and, with
the same expression, the `instructions` of `buildResponsesInput`): stringify
every system message, keep the truthy (non-empty) results, join with a blank
line. -/
def systemTextOf (messages : List ChatMessage) : String :=
  String.intercalate "\n\n"
    (((messages.filter (fun m => m.role == "system")).map stringifyMessageContent).filter
      (fun s => s != ""))

/-- `mergeSystemMessages`: fold all system messages into one synthetic
user-role preamble and drop the system-role messages. -/
def mergeSystemMessages (messages : List ChatMessage) : List ChatMessage :=
  let systemMessages := messages.filter (fun m => m.role == "system")
  if systemMessages.isEmpty then messages
  else
    let systemText := systemTextOf messages
    let nonSystemMessages := messages.filter (fun m => m.role != "system")
    if systemText == "" then nonSystemMessages
    else
      match nonSystemMessages with
      | [] => [{ role := "user", content := .str ("System:\n" ++ systemText) }]
      | first :: rest =>
          if first.role != "user" then
            { role := "user", content := .str ("System:\n" ++ systemText) } :: nonSystemMessages
          else
            let firstContent := stringifyMessageContent first
            let merged := jsTrim ("System:\n" ++ systemText ++ "\n\n" ++ firstContent)
            { first with content := .str merged } :: rest

/-- `shouldRetryWithCompletionTokens`: detect the "unsupported parameter"
error that asks for `max_completion_tokens` instead of `max_tokens`. -/
def shouldRetryWithCompletionTokens (errorData : Json) (currentParam : ParamName) : Bool :=
  if currentParam = .max_completion_tokens then false
  else
    match errorData.getField "error" with
    | none => false
    | some errorInfo =>
      if !errorInfo.truthy then false
      else
        let message :=
          match errorInfo.getField "message" with
          | some (.str s) => jsToLower s
          | _ => ""
        if message == "" then false
        else
          let isUnsupportedParam :=
            (match errorInfo.getField "code" with
             | some (.str c) => c == "unsupported_parameter"
             | _ => false) || strIncludes message "unsupported parameter"
          let referencesTokens :=
            strIncludes message "max_tokens" && strIncludes message "max_completion_tokens"
          let isMaxTokensParam :=
            match errorInfo.getField "param" with
            | none => true
            | some p =>
                !p.truthy ||
                  (match p with
                   | .str s => s == "max_tokens"
                   | _ => false)
          isUnsupportedParam && referencesTokens && isMaxTokensParam

/-- The lowercased `errorData?.error?.message` used by the two role-retry
predicates ('' when absent or not a string). -/
def lowerErrorMessage (errorData : Json) : String :=
  match (errorData.getField "error").bind (fun e => e.getField "message") with
  | some (.str s) => jsToLower s
  | _ => ""

/-- `shouldRetryWithoutSystemRole` (Completions mode): the messages contain a
system message and the error message blames the system role. -/
def shouldRetryWithoutSystemRole (errorData : Json) (messages : List ChatMessage) : Bool :=
  if !(messages.any (fun m => m.role == "system")) then false
  else
    let message := lowerErrorMessage errorData
    if message == "" then false
    else
      strIncludes message "system" &&
        (strIncludes message "unsupported" || strIncludes message "not supported" ||
          strIncludes message "not allowed" || strIncludes message "invalid" ||
          strIncludes message "role")

/-- `shouldRetryWithoutInstructions` (Responses mode). -/
def shouldRetryWithoutInstructions (errorData : Json) (messages : List ChatMessage) : Bool :=
  if !(messages.any (fun m => m.role == "system")) then false
  else
    let message := lowerErrorMessage errorData
    if message == "" then false
    else
      strIncludes message "instruction" ||
        (strIncludes message "system" &&
          (strIncludes message "unsupported" || strIncludes message "not supported" ||
            strIncludes message "not allowed" || strIncludes message "invalid"))

/-- An encoded wire message: role plus string-or-parts content. -/
structure EncodedMessage where
  role : String
  content : MsgContent
deriving DecidableEq

/-- `hasMultimodalContent`: the message carries at least one attachment. -/
def hasMultimodalContent (m : ChatMessage) : Bool :=
  !m.attachments.isEmpty

/-- `convertToMultimodalContent`: text part (when the string content has a
non-empty trim) followed by the converted attachments (`conv` models
`OpenAIAttachmentHandler.convertAttachments`). -/
def convertToMultimodalContent (conv : List Attachment → List MessageContent)
    (m : ChatMessage) : List MessageContent :=
  (match m.content with
   | .str s => if jsTrim s != "" then [{ type := "text", text := some s }] else []
   | .parts _ => []) ++
  (if !m.attachments.isEmpty then conv m.attachments else [])

/-- The wire body of a Completions request. The dynamic
`requestBody[maxTokensParam] = maxTokensValue` assignment is modelled by the
pair of fields `maxTokensField` (which key) and `maxTokensValue`. -/
structure CompletionsBody where
  model : String
  messages : List EncodedMessage
  temperature : ℚ
  top_p : ℚ
  frequency_penalty : Option ℚ
  presence_penalty : Option ℚ
  stream : Bool
  maxTokensField : ParamName
  maxTokensValue : ℚ
deriving DecidableEq

/-- `buildRequestBody` (Completions mode). -/
def buildRequestBody (conv : List Attachment → List MessageContent) (modelId : String)
    (messages : List ChatMessage) (stream : Bool) (params : Option APICallParams)
    (maxTokensParam : ParamName) : CompletionsBody :=
  { model := modelId
    messages :=
      messages.map (fun msg =>
        if hasMultimodalContent msg then
          { role := msg.role, content := .parts (convertToMultimodalContent conv msg) }
        else
          { role := msg.role
            content := .str
              (match msg.content with
               | .str s => s
               | .parts ps => ((ps[0]?).bind (fun p => p.text)).getD "") })
    temperature := ((params.bind (fun p => p.temperature)).getD 1)
    top_p := ((params.bind (fun p => p.topP)).getD (95 / 100))
    frequency_penalty := params.bind (fun p => p.frequencyPenalty)
    presence_penalty := params.bind (fun p => p.presencePenalty)
    stream := stream
    maxTokensField := maxTokensParam
    maxTokensValue := ((params.bind (fun p => p.maxTokens)).getD 8192) }

/-- `convertToResponsesContent`: text parts as `input_text`, then every
converted attachment of type `image_url` as an `input_image` carrying the
url string. -/
def convertToResponsesContent (conv : List Attachment → List MessageContent)
    (m : ChatMessage) : List MessageContent :=
  (match m.content with
   | .str s => if jsTrim s != "" then [{ type := "input_text", text := some s }] else []
   | .parts ps =>
       (ps.filter (fun p => p.type == "text" && optStrTruthy p.text)).map
         (fun p => { type := "input_text", text := p.text })) ++
  (if !m.attachments.isEmpty then
     (conv m.attachments).filterMap (fun a =>
       if a.type != "image_url" then none
       else
         match a.image_url with
         | none => none
         | some v =>
             let url := match v with | .str s => s | .obj u => u
             if url != "" then some { type := "input_image", image_url := some (.str url) }
             else none)
   else [])

/-- `buildResponsesInput`: system messages become the `instructions` string,
the rest become the input list. -/
def buildResponsesInput (conv : List Attachment → List MessageContent)
    (messages : List ChatMessage) : String × List EncodedMessage :=
  (systemTextOf messages,
    (messages.filter (fun m => m.role != "system")).map (fun msg =>
      if hasMultimodalContent msg then
        { role := msg.role, content := .parts (convertToResponsesContent conv msg) }
      else
        { role := msg.role, content := .str (stringifyMessageContent msg) }))

/-- The wire body of a Responses request built by the Completions adapter's
responses mode. -/
structure ResponsesModeBody where
  model : String
  input : List EncodedMessage
  temperature : ℚ
  top_p : ℚ
  frequency_penalty : Option ℚ
  presence_penalty : Option ℚ
  stream : Bool
  instructions : Option String
  max_output_tokens : ℚ
deriving DecidableEq

/-- `buildResponsesRequestBody`. -/
def buildResponsesRequestBody (conv : List Attachment → List MessageContent) (modelId : String)
    (messages : List ChatMessage) (stream : Bool) (params : Option APICallParams) :
    ResponsesModeBody :=
  let pair := buildResponsesInput conv messages
  { model := modelId
    input := pair.2
    temperature := ((params.bind (fun p => p.temperature)).getD 1)
    top_p := ((params.bind (fun p => p.topP)).getD (95 / 100))
    frequency_penalty := params.bind (fun p => p.frequencyPenalty)
    presence_penalty := params.bind (fun p => p.presencePenalty)
    stream := stream
    instructions := if pair.1 != "" then some pair.1 else none
    max_output_tokens := ((params.bind (fun p => p.maxTokens)).getD 8192) }

/-- A request body sent by one attempt of the retry loop. -/
inductive RequestBody where
  | completions (b : CompletionsBody)
  | responses (b : ResponsesModeBody)
deriving DecidableEq

/-- Which max-token key a sent body carries (`none` for responses-mode bodies,
which always use `max_output_tokens`). -/
def RequestBody.tokensField : RequestBody → Option ParamName
  | .completions b => some b.maxTokensField
  | .responses _ => none

/-- The fixed data of one `callAPI` invocation: the HTTP oracle (response to
the n-th attempt), the attachment converter, and the arguments of the call. -/
structure CallCtx where
  oracle : Nat → HttpResponse
  conv : List Attachment → List MessageContent
  modelId : String
  stream : Bool
  params : Option APICallParams
  useResponsesApi : Bool

/-- The body sent by an attempt in state (`curParam`, `msgs`). -/
def buildBody (ctx : CallCtx) (curParam : ParamName) (msgs : List ChatMessage) : RequestBody :=
  if ctx.useResponsesApi then
    .responses (buildResponsesRequestBody ctx.conv ctx.modelId msgs ctx.stream ctx.params)
  else
    .completions (buildRequestBody ctx.conv ctx.modelId msgs ctx.stream ctx.params curParam)

/-- Result of the retry loop of `callAPI` (source lines 57–98): the bodies
sent (one per HTTP attempt, in order), the outcome (`.error e` models the
thrown `OpenAI API error` carrying the upstream error body, `.ok r` the
first successful response), and the value of the instance field
`maxTokensParamName` when the loop ends. -/
structure LoopResult where
  requests : List RequestBody
  outcome : Except Json HttpResponse
  finalParam : ParamName

/-- Termination measure of the retry loop: each recovery class can fire at
most once (the parameter class needs `curParam = max_tokens` and leaves it
`max_completion_tokens`; the role class needs a system message and removes
them all). -/
def loopMeasure (p : ParamName) (msgs : List ChatMessage) : Nat :=
  (if p = .max_tokens then 1 else 0) +
    (if msgs.any (fun m => m.role == "system") then 1 else 0)

/-- The `while (true)` retry loop of `callAPI`: send the body for the current
state, stop on success, otherwise apply at most the two known corrections and
retry, else rethrow the upstream error. `field` tracks the mutable instance
field `maxTokensParamName`. -/
def callAPILoop (ctx : CallCtx) (attempt : Nat) (curParam : ParamName)
    (msgs : List ChatMessage) (field : ParamName) : LoopResult :=
  let body := buildBody ctx curParam msgs
  let resp := ctx.oracle attempt
  if resp.ok then
    { requests := [body], outcome := .ok resp, finalParam := curParam }
  else if h1 : shouldRetryWithCompletionTokens resp.json curParam = true then
    let r := callAPILoop ctx (attempt + 1) .max_completion_tokens msgs .max_completion_tokens
    { r with requests := body :: r.requests }
  else if h2 : (if ctx.useResponsesApi then shouldRetryWithoutInstructions resp.json msgs
                else shouldRetryWithoutSystemRole resp.json msgs) = true then
    let r := callAPILoop ctx (attempt + 1) curParam (mergeSystemMessages msgs) field
    { r with requests := body :: r.requests }
  else
    { requests := [body], outcome := .error resp.json, finalParam := field }
termination_by loopMeasure curParam msgs
decreasing_by
  · -- parameter-correction branch: `curParam` must still be `max_tokens`
    cases curParam with
    | max_completion_tokens => simp [shouldRetryWithCompletionTokens] at h1
    | max_tokens =>
        by_cases hs : msgs.any (fun m => m.role == "system") = true
        · simp [loopMeasure, hs]
        · simp [loopMeasure, hs]
  · -- role-correction branch: the merged messages contain no system message
    have hsys : msgs.any (fun m => m.role == "system") = true := by
      by_contra hc
      rw [Bool.not_eq_true] at hc
      split at h2
      · unfold shouldRetryWithoutInstructions at h2
        simp [hc] at h2
      · unfold shouldRetryWithoutSystemRole at h2
        simp [hc] at h2
    have hmem : ∀ m ∈ mergeSystemMessages msgs, (m.role == "system") = false := by
      have hfil : ∀ m ∈ msgs.filter (fun m => m.role != "system"),
          (m.role == "system") = false := by
        intro m hm
        have := (List.mem_filter.mp hm).2
        simpa [bne] using this
      intro m hm
      unfold mergeSystemMessages at hm
      simp only at hm
      split at hm
      · next hempty =>
          rw [List.isEmpty_iff, List.filter_eq_nil_iff] at hempty
          have := hempty m hm
          simpa using this
      · split at hm
        · exact hfil m hm
        · split at hm
          · next _heq =>
              simp only [List.mem_singleton] at hm
              subst hm
              rfl
          · next first rest heq =>
              split at hm
              · rcases List.mem_cons.mp hm with h | h
                · subst h; rfl
                · exact hfil m h
              · rcases List.mem_cons.mp hm with h | h
                · subst h
                  next hfu =>
                    simp only [bne, Bool.not_eq_true'] at hfu
                    have : first.role = "user" := by simpa using hfu
                    simp [this]
                · exact hfil m (heq ▸ List.mem_cons_of_mem first h)
    have hmerged : ((mergeSystemMessages msgs).any fun m => m.role == "system") = false := by
      apply Bool.eq_false_iff.mpr
      intro hx
      rw [List.any_eq_true] at hx
      obtain ⟨m, hm, hrole⟩ := hx
      rw [hmem m hm] at hrole
      exact Bool.false_ne_true hrole
    cases curParam with
    | max_completion_tokens => simp [loopMeasure, hsys, hmerged]
    | max_tokens => simp [loopMeasure, hsys, hmerged]

end OpenAIProvider

/-- Provider configuration as the adapters read it: base URL and API key,
each possibly absent (`Option`); the model list only feeds the initial
parameter-name choice and is not needed here. -/
structure ProviderConfig where
  baseUrl : Option String
  apiKey : Option String

namespace OpenAIProvider

/-- Everything `callAPI` has decided before (and for) the first network
attempt, plus the loop result. -/
structure CallOutcome where
  apiUrl : String
  timeoutMs : Nat
  authHeader : String
  result : LoopResult

/-- `callAPI` (source lines 28–98): fail when the base URL is absent or
empty, resolve the endpoint URL, pick the timeout, then run the retry loop.
`instanceParam` is the adapter instance's current `maxTokensParamName`;
`.error` is the thrown configuration error. The response-content extraction
of the non-streaming success path (lines 100–157) happens after the loop has
ended and never re-enters it, so it is outside this model. -/
def callAPI (oracle : Nat → HttpResponse) (conv : List Attachment → List MessageContent)
    (modelId : String) (config : ProviderConfig) (instanceParam : ParamName)
    (messages : List ChatMessage) (stream : Bool) (params : Option APICallParams) :
    Except String CallOutcome :=
  if !optStrTruthy config.baseUrl then .error "API URL 未配置"
  else
    let apiUrl0 := jsTrim (config.baseUrl.getD "")
    let useResponsesApi := strIncludes apiUrl0 "/responses"
    let apiUrl :=
      if useResponsesApi then dropTrailingSlashes apiUrl0
      else if strIncludes apiUrl0 "/chat/completions" then apiUrl0
      else if strIncludes apiUrl0 "/v1" then dropTrailingSlashes apiUrl0 ++ "/chat/completions"
      else dropTrailingSlashes apiUrl0 ++ "/v1/chat/completions"
    let isThinkingModel :=
      strIncludes modelId "gpt-5" || strIncludes modelId "o1" || strIncludes modelId "thinking"
    let timeoutMs := if isThinkingModel then 600000 else 300000
    let ctx : CallCtx :=
      { oracle := oracle, conv := conv, modelId := modelId, stream := stream,
        params := params, useResponsesApi := useResponsesApi }
    .ok
      { apiUrl := apiUrl
        timeoutMs := timeoutMs
        authHeader := "Bearer " ++ jsTemplate config.apiKey
        result := callAPILoop ctx 0 instanceParam messages instanceParam }

/-- A decoded stream chunk. `content` is kept as a raw JS value: the code only
type-checks it on some paths, so at runtime a non-string can flow through. -/
structure StreamChunk where
  content : Json
  done : Bool

/-- The `parsed.choices?.[0]?.delta?.content` optional chain. -/
def choicesDeltaContent (parsed : Json) : Option Json :=
  (((parsed.getField "choices").bind (fun c => c.getIdx 0)).bind
    (fun c => c.getField "delta")).bind (fun d => d.getField "content")

/-- The `parsed.candidates?.[0]?.content?.parts` optional chain. -/
def candidatesParts (parsed : Json) : Option Json :=
  (((parsed.getField "candidates").bind (fun c => c.getIdx 0)).bind
    (fun c => c.getField "content")).bind (fun c => c.getField "parts")

/-- The body of the `try` block of `parseStreamChunk` on an already-parsed
value. `none` models a `TypeError` thrown inside the block (iterating or
calling `.includes` on an unsuitable value), which the `catch` turns into
`null`. -/
def parseStreamChunkParsed (parsed : Json) : Option StreamChunk :=
  let typeVal := parsed.getField "type"
  -- `if (parsed.type && typeof parsed.type === 'string')`
  let deltaStr : Option String :=
    match parsed.getField "delta" with
    | some (.str d) => some d
    | _ => none
  let textStr : Option String :=
    match parsed.getField "text" with
    | some (.str s) => some s
    | _ => none
  let content0 : Option Json :=
    match typeVal with
    | some (.str t) =>
        if t != "" then
          if strIncludes t "response.output_text.delta" && deltaStr.isSome then
            some (.str (deltaStr.getD ""))
          else if strIncludes t "response.output_text.done" && textStr.isSome then
            some (.str (textStr.getD ""))
          else none
        else none
    | _ => none
  -- the `if (!content && choices...) / else if ...` chain; iterating a truthy
  -- non-iterable `parts` value throws
  let contentStep : Except Unit (Option Json) :=
    if !optTruthy content0 && optTruthy (choicesDeltaContent parsed) then
      .ok (choicesDeltaContent parsed)
    else if optTruthy (candidatesParts parsed) then
      match candidatesParts parsed with
      | some (.arr xs) =>
          .ok
            (match xs.find? (fun part =>
                optTruthy (part.getField "text") && !optTruthy (part.getField "thought")) with
             | some part => part.getField "text"
             | none => content0)
      | some (.str _) => .ok content0   -- a string iterates per character; no char has `.text`
      | _ => .error ()                  -- truthy non-iterable: `for...of` throws
    else if optTruthy ((parsed.getField "delta").bind (fun d => d.getField "text")) then
      .ok ((parsed.getField "delta").bind (fun d => d.getField "text"))
    else if optTruthy (parsed.getField "text") then
      .ok (parsed.getField "text")
    else .ok content0
  -- `done`: a finish reason, an explicit done flag, or a completion event
  -- type; `parsed.type.includes` throws when `type` is truthy but has no
  -- `includes` method (arrays do have one)
  let finishReason :=
    ((parsed.getField "choices").bind (fun c => c.getIdx 0)).bind
      (fun c => c.getField "finish_reason")
  let doneStep : Except Unit Bool :=
    if optTruthy finishReason then .ok true
    else if optTruthy (parsed.getField "done") then .ok true
    else
      match typeVal with
      | none => .ok false
      | some j =>
          if !j.truthy then .ok false
          else
            match j with
            | .str t => .ok (strIncludes t "response.completed")
            | .arr xs =>
                .ok (xs.any (fun x =>
                  match x with
                  | .str s => s == "response.completed"
                  | _ => false))
            | _ => .error ()
  match contentStep, doneStep with
  | .ok content1, .ok done =>
      some { content := if optTruthy content1 then content1.getD .null else .str "", done := done }
  | _, _ => none

/-- `parseStreamChunk` of `OpenAIProvider`: blank and `[DONE]` frames signal
completion, the OpenRouter status comments are dropped, anything that fails
`JSON.parse` (or throws inside the `try`) becomes `null`. -/
def parseStreamChunk (jsonParse : String → Option Json) (data : String) : Option StreamChunk :=
  if jsTrim data == "" || jsTrim data == "[DONE]" then
    some { content := .str "", done := true }
  else if data == ": OPENROUTER PROCESSING" then
    none
  else if jsStartsWith data ": " && strIncludes (jsToUpper data) "PROCESSING" then
    none
  else
    match jsonParse data with
    | none => none
    | some parsed => parseStreamChunkParsed parsed

/-- `isResponsesApiUrl`. -/
def isResponsesApiUrl (baseUrl : String) : Bool :=
  strIncludes baseUrl "/responses"

/-- `requiresCompletionTokens`: model-id keyword heuristic for the initial
parameter name. -/
def requiresCompletionTokens (modelId : String) : Bool :=
  let normalized := jsToLower modelId
  ["gpt-5", "o1", "o3", "o4", "reasoning"].any (fun k => strIncludes normalized k)

end OpenAIProvider

/-! ## OpenAIResponsesProvider (services/ai/providers/OpenAIResponsesProvider.ts) -/

namespace OpenAIResponsesProvider

/-- The part of `callAPI` that runs before any network request (source lines
14–39): the base-URL guard, endpoint resolution, timeout choice and request
headers. `.error` is the thrown configuration error; `.ok` means an HTTP
request is issued with these data. -/
structure RequestPrep where
  apiUrl : String
  timeoutMs : Nat
  authHeader : String

/-- `callAPI` up to the network request. Note the only configuration check is
on the base URL: an absent API key flows into the `Authorization` header as
the literal text `undefined`. -/
def callAPIPrepare (config : ProviderConfig) (modelId : String) : Except String RequestPrep :=
  if !optStrTruthy config.baseUrl then .error "API URL 未配置"
  else
    let apiUrl0 := jsTrim (config.baseUrl.getD "")
    let apiUrl :=
      if strIncludes apiUrl0 "/responses" then apiUrl0
      else if strIncludes apiUrl0 "/v1" then dropTrailingSlashes apiUrl0 ++ "/responses"
      else dropTrailingSlashes apiUrl0 ++ "/v1/responses"
    let isThinkingModel :=
      strIncludes modelId "gpt-5" || strIncludes modelId "o1" || strIncludes modelId "thinking"
    let timeoutMs := if isThinkingModel then 600000 else 300000
    .ok
      { apiUrl := apiUrl
        timeoutMs := timeoutMs
        authHeader := "Bearer " ++ jsTemplate config.apiKey }

/-- `parseStreamChunk` of `OpenAIResponsesProvider`: blank frames and
anything unparsable give `null`; only the recognized delta/done event shapes
yield a chunk. -/
def parseStreamChunk (jsonParse : String → Option Json)
    (data : String) : Option OpenAIProvider.StreamChunk :=
  if jsTrim data == "" then none
  else
    match jsonParse data with
    | none => none
    | some parsed =>
        let typeStr : Option String :=
          match parsed.getField "type" with
          | some (.str t) => some t
          | _ => none
        let deltaStr : Option String :=
          match parsed.getField "delta" with
          | some (.str d) => some d
          | _ => none
        if typeStr == some "response.output_text.delta" && deltaStr.isSome then
          some { content := .str (deltaStr.getD ""), done := false }
        else if typeStr == some "response.output_text.done" ||
            typeStr == some "response.completed" then
          some { content := .str "", done := true }
        else
          let dt := (parsed.getField "delta").bind (fun d => d.getField "text")
          if optTruthy dt then some { content := dt.getD .null, done := false }
          else none

end OpenAIResponsesProvider

/-! ## OpenAIDrawingService (services/openaiDrawingService.ts) -/

namespace OpenAIDrawingService

/-- An inline image payload: mime type plus base64 data. -/
structure InlineData where
  mimeType : String
  data : String
deriving DecidableEq

/-- A candidate/parts content part: optional text, optional inline image, and
the internal-reasoning flag (`(part as any).thought`; an absent flag behaves
as `false`). -/
structure Part where
  text : Option String := none
  inlineData : Option InlineData := none
  thought : Bool := false
deriving DecidableEq

/-- A message of the drawing conversation history. -/
structure DrawingMessage where
  role : String
  parts : List Part
deriving DecidableEq

/-- A content part of an outgoing OpenAI chat message. -/
inductive OAContentPart where
  | text (t : String)
  | imageUrl (url : String)
deriving DecidableEq

/-- The content of an outgoing OpenAI chat message: a bare string or a part
array. -/
inductive OAContent where
  | str (s : String)
  | parts (ps : List OAContentPart)
deriving DecidableEq

/-- An outgoing OpenAI chat message built by `buildMessages`. -/
structure OpenAIChatMessage where
  role : String
  content : OAContent
deriving DecidableEq

/-- The per-message encoding step of `buildMessages` (the `forEach` body for
non-system messages): gather text and data-url image parts, skip the message
when none result, normalize role `model` to `assistant`, and collapse a lone
text part to a bare string. -/
def encodeDrawingMessage (msg : DrawingMessage) : Option OpenAIChatMessage :=
  let contentParts : List OAContentPart :=
    msg.parts.flatMap (fun part =>
      (if optStrTruthy part.text then [OAContentPart.text (part.text.getD "")] else []) ++
      (match part.inlineData with
       | some d =>
           [OAContentPart.imageUrl ("data:" ++ d.mimeType ++ ";base64," ++ d.data)]
       | none => []))
  if contentParts.isEmpty then none
  else
    let role := if msg.role == "model" then "assistant" else msg.role
    let content : OAContent :=
      match contentParts with
      | [OAContentPart.text t] => .str t
      | ps => .parts ps
    some { role := role, content := content }

/-- `buildMessages`: fold the custom system prompt and the history's system
messages into one leading system message, then encode every non-system
message with `encodeDrawingMessage`. -/
def buildMessages (conversationHistory : List DrawingMessage)
    (systemPrompt : Option String) : List OpenAIChatMessage :=
  let systemParts : List String :=
    (match systemPrompt.map jsTrim with
     | some t => if t != "" then [t] else []
     | none => []) ++
    (let systemMessages := conversationHistory.filter (fun m => m.role == "system")
     if !systemMessages.isEmpty then
       let systemText :=
         String.intercalate "\n"
           (systemMessages.map (fun msg =>
             String.intercalate "\n"
               ((msg.parts.filter (fun p => optStrTruthy p.text)).map (fun p => p.text.getD ""))))
       if systemText != "" then [systemText] else []
     else [])
  let head : List OpenAIChatMessage :=
    if !systemParts.isEmpty then
      [{ role := "system", content := .str (String.intercalate "\n\n" systemParts) }]
    else []
  head ++
    ((conversationHistory.filter (fun m => m.role != "system")).filterMap encodeDrawingMessage)

/-- Thought-trace entry collected from reasoning parts. -/
structure ThoughtTraceItem where
  type : String
  text : Option String := none
  mimeType : Option String := none
  data : Option String := none
deriving DecidableEq

/-- Vendor usage counters, already normalized. -/
structure UsageMetadata where
  promptTokenCount : Option Int := none
  candidatesTokenCount : Option Int := none
  totalTokenCount : Option Int := none
deriving DecidableEq

/-- The generation controls the extraction code copies into each image. -/
structure ImageGenerationConfig where
  temperature : ℚ
  topP : ℚ
  maxOutputTokens : Option ℚ := none
  frequencyPenalty : Option ℚ := none
  presencePenalty : Option ℚ := none
  responseMimeType : String
deriving DecidableEq

/-- A generated image as assembled by `extractImages`. The
`JSON.parse(JSON.stringify(...))` deep copies of plain data are identities in
the model. -/
structure GeneratedImage where
  id : String
  imageData : String
  mimeType : String
  prompt : String
  timestamp : Nat
  generationConfig : ImageGenerationConfig
  thoughtSummary : Option String
  thoughtTrace : Option (List ThoughtTraceItem)
  usageMetadata : Option UsageMetadata
deriving DecidableEq

/-- The `content` of a candidate (always carries a parts array when
present). -/
structure ContentBlock where
  parts : List Part
  role : Option String := none
deriving DecidableEq

/-- One response candidate. -/
structure Candidate where
  content : Option ContentBlock
  finishReason : Option String := none
  index : Option Int := none
deriving DecidableEq

/-- Prompt feedback carrying an optional block reason. -/
structure PromptFeedback where
  blockReason : Option String := none
deriving DecidableEq

/-- The normalized candidate/parts response shape. -/
structure DrawingServiceResponse where
  candidates : Option (List Candidate)
  usageMetadata : Option UsageMetadata := none
  promptFeedback : Option PromptFeedback := none
deriving DecidableEq

/-- State threaded through one candidate's parts by `extractImages`: the
thought segments and thought trace collected so far, and the images pushed so
far (the image list is shared across candidates). -/
abbrev ExtractState := List String × List ThoughtTraceItem × List GeneratedImage

/-- One step of the `parts.forEach` of `extractImages`. `now` models the
`Date.now()` clock (the source reads it once per pushed image for both the id
and the timestamp). -/
def extractImagesStep (now : Nat) (idx : Nat) (prompt : String)
    (config : ImageGenerationConfig) (usage : Option UsageMetadata)
    (st : ExtractState) (part : Part) : ExtractState :=
  let segments := st.1
  let trace := st.2.1
  let imgs := st.2.2
  if part.thought then
    if optStrTruthy part.text then
      let cleaned := jsTrim (part.text.getD "")
      if cleaned != "" then
        (segments ++ [cleaned], trace ++ [{ type := "text", text := some cleaned }], imgs)
      else (segments, trace, imgs)
    else
      match part.inlineData with
      | some d =>
          (segments,
            trace ++ [{ type := "image", mimeType := some d.mimeType, data := some d.data }],
            imgs)
      | none => (segments, trace, imgs)
  else
    match part.inlineData with
    | some d =>
        (segments, trace,
          imgs ++
            [{ id := toString now ++ "-" ++ toString idx
               imageData := d.data
               mimeType := d.mimeType
               prompt := prompt
               timestamp := now
               generationConfig := config
               thoughtSummary :=
                 if !segments.isEmpty then some (String.intercalate "\n\n" segments) else none
               thoughtTrace := if !trace.isEmpty then some trace else none
               usageMetadata := usage }])
    | none => (segments, trace, imgs)

/-- `extractImages`: walk every candidate's parts, collecting reasoning parts
into a per-candidate thought trace and emitting one `GeneratedImage` per
non-thought inline image. -/
def extractImages (now : Nat) (response : DrawingServiceResponse) (prompt : String)
    (config : ImageGenerationConfig) : List GeneratedImage :=
  match response.candidates with
  | none => []
  | some cands =>
      if cands.isEmpty then []
      else
        cands.enum.foldl (fun images (ic : Nat × Candidate) =>
          match ic.2.content with
          | none => images
          | some content =>
              (content.parts.foldl
                (extractImagesStep now ic.1 prompt config response.usageMetadata)
                ([], [], images)).2.2)
          []

/-- `extractText`: join the text of the first candidate's non-thought text
parts. -/
def extractText (response : DrawingServiceResponse) : String :=
  match response.candidates with
  | none => ""
  | some [] => ""
  | some (candidate :: _) =>
      match candidate.content with
      | none => ""
      | some content =>
          String.join
            ((content.parts.filter (fun p => optStrTruthy p.text && !p.thought)).map
              (fun p => p.text.getD ""))

end OpenAIDrawingService

/-! ## Playground display-text balancing (PlaygroundApp.js) -/

namespace Playground

/-- Number of matches of the global regex for three consecutive backticks:
greedy, left-to-right, non-overlapping — exactly how
`text.match(/(three backticks)/g)` counts occurrences. -/
def countFences : List Char → Nat
  | '`' :: '`' :: '`' :: rest => countFences rest + 1
  | _ :: rest => countFences rest
  | [] => 0

/-- `buildDisplayText` from `PlaygroundApp.js`: if the accumulated text holds
an odd number of triple-backtick fence markers, append a newline and a closing
fence; otherwise return the text unchanged. -/
def buildDisplayText (text : String) : String :=
  if countFences text.data % 2 != 0 then text ++ "\n```" else text

end Playground

/-! ## Helper lemmas -/

theorem hasPrefixChars_append (pat t : List Char) : hasPrefixChars pat (pat ++ t) = true := by
  induction pat with
  | nil => rfl
  | cons a as ih => simp [hasPrefixChars, ih]

theorem hasInfixChars_nil (l : List Char) : hasInfixChars [] l = true := by
  cases l <;> simp [hasInfixChars, hasPrefixChars]

theorem hasInfixChars_middle (pat xs ys : List Char) :
    hasInfixChars pat (xs ++ pat ++ ys) = true := by
  induction xs with
  | nil =>
      cases pat with
      | nil => simpa using hasInfixChars_nil ys
      | cons p ps =>
          simp only [List.nil_append, List.cons_append]
          simp [hasInfixChars, hasPrefixChars]
          exact Or.inl (hasPrefixChars_append ps ys)
  | cons x xs ih =>
      simp only [List.cons_append]
      simp [hasInfixChars]
      exact Or.inr (by simpa [List.append_assoc] using ih)

theorem strIncludes_middle (pre suf : List Char) (pat : String) :
    strIncludes (String.mk (pre ++ pat.data ++ suf)) pat = true := by
  simpa [strIncludes] using hasInfixChars_middle pat.data pre suf

theorem dropWhile_append_cons {α : Type} (p : α → Bool) (as bs : List α) (b : α)
    (hb : p b = false) :
    (as ++ b :: bs).dropWhile p = as.dropWhile p ++ b :: bs := by
  induction as with
  | nil => simp [List.dropWhile, hb]
  | cons a as ih =>
      by_cases ha : p a <;> simp [List.dropWhile, ha, ih]

theorem trimChars_keeps_suffix_marked (u v : List Char) (c : Char)
    (hc : c.isWhitespace = false) :
    ((u ++ c :: v).reverse.dropWhile Char.isWhitespace).reverse =
      u ++ c :: (v.reverse.dropWhile Char.isWhitespace).reverse := by
  rw [List.reverse_append, List.reverse_cons, List.append_assoc, List.singleton_append,
    dropWhile_append_cons Char.isWhitespace v.reverse u.reverse c hc]
  simp

theorem trimChars_split (x c : Char) (xs mid ys : List Char)
    (hx : x.isWhitespace = false) (hc : c.isWhitespace = false) :
    trimChars (x :: (xs ++ (mid ++ [c]) ++ ys)) =
      (x :: (xs ++ mid)) ++ c :: (ys.reverse.dropWhile Char.isWhitespace).reverse := by
  unfold trimChars
  have hshape : x :: (xs ++ (mid ++ [c]) ++ ys) = (x :: (xs ++ mid)) ++ c :: ys := by
    simp [List.append_assoc]
  rw [hshape]
  have hfront : ((x :: (xs ++ mid)) ++ c :: ys).dropWhile Char.isWhitespace
      = (x :: (xs ++ mid)) ++ c :: ys := by
    rw [List.cons_append, List.dropWhile_cons]
    simp [hx]
  rw [hfront]
  exact trimChars_keeps_suffix_marked (x :: (xs ++ mid)) ys c hc

theorem countFences_cons3 (a b c : Char) (r : List Char)
    (h : ¬(a = '`' ∧ b = '`' ∧ c = '`')) :
    Playground.countFences (a :: b :: c :: r) = Playground.countFences (b :: c :: r) := by
  conv_lhs => rw [Playground.countFences.eq_def]
  split
  · rename_i rest heq
    obtain ⟨ha, hb, hc, -⟩ := by simpa using heq
    exact absurd ⟨ha, hb, hc⟩ h
  · rename_i heq
    injection heq with h1 h2
    subst h2
    rfl
  · rename_i heq
    simp at heq

theorem countFences_one (a : Char) : Playground.countFences [a] = 0 := by
  conv_lhs => rw [Playground.countFences.eq_def]
  split
  · rename_i heq
    simp at heq
  · rename_i heq
    injection heq with h1 h2
    subst h2
    rfl
  · rename_i heq
    simp at heq

theorem countFences_two (a b : Char) : Playground.countFences [a, b] = 0 := by
  conv_lhs => rw [Playground.countFences.eq_def]
  split
  · rename_i heq
    simp at heq
  · rename_i heq
    injection heq with h1 h2
    subst h2
    exact countFences_one b
  · rename_i heq
    simp at heq

theorem countFences_triple (r : List Char) :
    Playground.countFences ('`' :: '`' :: '`' :: r) = Playground.countFences r + 1 := rfl

theorem countFences_append :
    ∀ l : List Char,
      Playground.countFences (l ++ '\n' :: '`' :: '`' :: '`' :: []) =
        Playground.countFences l + 1
  | [] => by decide
  | [a] => by
      rw [show ([a] ++ '\n' :: '`' :: '`' :: '`' :: []) =
        a :: '\n' :: '`' :: '`' :: '`' :: [] from rfl]
      rw [countFences_cons3 a '\n' '`' _ (by simp), countFences_one]
      decide
  | [a, b] => by
      rw [show ([a, b] ++ '\n' :: '`' :: '`' :: '`' :: []) =
        a :: b :: '\n' :: '`' :: '`' :: '`' :: [] from rfl]
      rw [countFences_cons3 a b '\n' _ (by simp)]
      rw [countFences_cons3 b '\n' '`' _ (by simp), countFences_two]
      decide
  | a :: b :: c :: rest => by
      by_cases h3 : a = '`' ∧ b = '`' ∧ c = '`'
      · obtain ⟨ha, hb, hc⟩ := h3
        subst ha; subst hb; subst hc
        rw [show (('`' :: '`' :: '`' :: rest) ++ '\n' :: '`' :: '`' :: '`' :: []) =
          '`' :: '`' :: '`' :: (rest ++ '\n' :: '`' :: '`' :: '`' :: []) from rfl]
        rw [countFences_triple, countFences_triple, countFences_append rest]
      · rw [show ((a :: b :: c :: rest) ++ '\n' :: '`' :: '`' :: '`' :: []) =
          a :: b :: c :: (rest ++ '\n' :: '`' :: '`' :: '`' :: []) from rfl]
        rw [countFences_cons3 a b c _ h3, countFences_cons3 a b c rest h3]
        exact countFences_append (b :: c :: rest)
termination_by l => l.length
decreasing_by
  · simp only [List.length_cons]
    omega
  · simp only [List.length_cons]
    omega

/-! ## Claims about buildDisplayText -/

/-- C8: for accumulated text with an odd number of triple-backtick fence
markers, `buildDisplayText` appends exactly one closing fence (the result is
the text followed by a newline and one fence, and the fence count grows by
exactly one); for an even number (including zero) the text passes through
unchanged. -/
theorem claim_C8 (s : String) :
    (Playground.countFences s.data % 2 = 1 →
      Playground.buildDisplayText s = s ++ "\n```" ∧
      Playground.countFences (Playground.buildDisplayText s).data =
        Playground.countFences s.data + 1) ∧
    (Playground.countFences s.data % 2 = 0 → Playground.buildDisplayText s = s) := by
  constructor
  · intro hodd
    have hcond : Playground.buildDisplayText s = s ++ "\n```" := by
      unfold Playground.buildDisplayText
      simp [hodd]
    refine ⟨hcond, ?_⟩
    rw [hcond, String.data_append]
    have hdata : ("\n```" : String).data = '\n' :: '`' :: '`' :: '`' :: [] := rfl
    rw [hdata]
    exact countFences_append s.data
  · intro heven
    unfold Playground.buildDisplayText
    simp [heven]

/-- Witness for C8 at concrete inputs on both sides of the parity split. -/
theorem claim_C8_witness :
    Playground.buildDisplayText "a```b" = "a```b" ++ "\n```" ∧
    Playground.buildDisplayText "ab" = "ab" :=
  ⟨((claim_C8 "a```b").1 (by decide)).1, (claim_C8 "ab").2 (by decide)⟩

/-- C10: `buildDisplayText` is idempotent, and its output always contains an
even number of triple-backtick fence markers. -/
theorem claim_C10 (s : String) :
    Playground.buildDisplayText (Playground.buildDisplayText s) =
      Playground.buildDisplayText s ∧
    Playground.countFences (Playground.buildDisplayText s).data % 2 = 0 := by
  rcases Nat.even_or_odd (Playground.countFences s.data) with he | ho
  · have h0 : Playground.countFences s.data % 2 = 0 := Nat.even_iff.mp he
    have hid := (claim_C8 s).2 h0
    refine ⟨?_, ?_⟩
    · rw [hid]
      exact hid
    · rw [hid]
      exact h0
  · have h1 : Playground.countFences s.data % 2 = 1 := Nat.odd_iff.mp ho
    obtain ⟨heq, hcount⟩ := (claim_C8 s).1 h1
    have heven : Playground.countFences (Playground.buildDisplayText s).data % 2 = 0 := by
      rw [hcount]
      omega
    exact ⟨(claim_C8 (Playground.buildDisplayText s)).2 heven, heven⟩

/-! ## Claims about the drawing-service extraction -/

/-- C9: for a non-streaming candidate/parts response whose single candidate
has a reasoning part followed by an inline PNG, `extractImages` yields exactly
one image with `imageData = "AAA="` whose thought trace holds the reasoning
segment, and `extractText` excludes the thought text from the primary
output (the primary text is empty). -/
theorem claim_C9 (now : Nat) (prompt : String)
    (config : OpenAIDrawingService.ImageGenerationConfig) :
    OpenAIDrawingService.extractImages now
        { candidates := some
            [{ content := some
                { parts :=
                    [{ text := some "reasoning", thought := true },
                     { inlineData := some { mimeType := "image/png", data := "AAA=" } }] } }] }
        prompt config =
      [{ id := toString now ++ "-" ++ toString 0
         imageData := "AAA="
         mimeType := "image/png"
         prompt := prompt
         timestamp := now
         generationConfig := config
         thoughtSummary := some "reasoning"
         thoughtTrace := some [{ type := "text", text := some "reasoning" }]
         usageMetadata := none }] ∧
    OpenAIDrawingService.extractText
        { candidates := some
            [{ content := some
                { parts :=
                    [{ text := some "reasoning", thought := true },
                     { inlineData := some { mimeType := "image/png", data := "AAA=" } }] } }] } =
      "" := by
  constructor
  · rfl
  · rfl

/-! ## Claims about stream-chunk parsing -/

/-- C4: `parseStreamChunk('[DONE]')` yields the terminal chunk with empty
content; the OpenRouter processing comment yields `null`; and any frame that
is not blank, not the `[DONE]` sentinel and fails JSON parsing yields `null`
(the parse exception is caught, never propagated). -/
theorem claim_C4 :
    (∀ jp : String → Option Json,
        OpenAIProvider.parseStreamChunk jp "[DONE]" =
          some { content := .str "", done := true }) ∧
    (∀ jp : String → Option Json,
        OpenAIProvider.parseStreamChunk jp ": OPENROUTER PROCESSING" = none) ∧
    (∀ (jp : String → Option Json) (data : String),
        jsTrim data ≠ "" → jsTrim data ≠ "[DONE]" → jp data = none →
        OpenAIProvider.parseStreamChunk jp data = none) := by
  refine ⟨fun jp => rfl, fun jp => rfl, fun jp data h1 h2 h3 => ?_⟩
  have e1 : (jsTrim data == "") = false := beq_eq_false_iff_ne.mpr h1
  have e2 : (jsTrim data == "[DONE]") = false := beq_eq_false_iff_ne.mpr h2
  unfold OpenAIProvider.parseStreamChunk
  rw [e1, e2, h3]
  simp

/-- Witness for C4: a non-JSON frame is swallowed as `null`. -/
theorem claim_C4_witness :
    OpenAIProvider.parseStreamChunk (fun _ => none) "notjson" = none :=
  claim_C4.2.2 (fun _ => none) "notjson" (by decide) (by decide) rfl

/-- C5 counterexample: an empty frame (which carries no user-visible content)
makes the Completions-style `parseStreamChunk` return the terminal chunk
`{content := '', done := true}` — an end-of-stream signal, not `null` as the
claim requires. -/
theorem claim_C5_cex :
    OpenAIProvider.parseStreamChunk (fun _ => none) "" =
      some { content := .str "", done := true } := rfl

/-- C5 (amended): frames carrying no user-visible content are `null` with one
exception. The Responses provider returns `null` on blank frames and on
unparsable frames; the Completions provider returns `null` on vendor status
comments and on unparsable non-blank frames, but returns the end-of-stream
chunk `{content:'', done:true}` on blank (empty or whitespace-only)
frames. -/
theorem claim_C5 :
    (∀ (jp : String → Option Json) (data : String), jsTrim data = "" →
        OpenAIResponsesProvider.parseStreamChunk jp data = none) ∧
    (∀ (jp : String → Option Json) (data : String), jp data = none →
        OpenAIResponsesProvider.parseStreamChunk jp data = none) ∧
    (∀ (jp : String → Option Json) (data : String),
        jsStartsWith data ": " = true → strIncludes (jsToUpper data) "PROCESSING" = true →
        jsTrim data ≠ "" → jsTrim data ≠ "[DONE]" →
        OpenAIProvider.parseStreamChunk jp data = none) ∧
    (∀ (jp : String → Option Json) (data : String),
        jsTrim data ≠ "" → jsTrim data ≠ "[DONE]" → jp data = none →
        OpenAIProvider.parseStreamChunk jp data = none) ∧
    (∀ (jp : String → Option Json) (data : String), jsTrim data = "" →
        OpenAIProvider.parseStreamChunk jp data =
          some { content := .str "", done := true }) := by
  refine ⟨?_, ?_, ?_, ?_, ?_⟩
  · intro jp data h
    unfold OpenAIResponsesProvider.parseStreamChunk
    simp [h]
  · intro jp data h
    unfold OpenAIResponsesProvider.parseStreamChunk
    rw [h]
    simp
  · intro jp data hst hpr h1 h2
    have e1 : (jsTrim data == "") = false := beq_eq_false_iff_ne.mpr h1
    have e2 : (jsTrim data == "[DONE]") = false := beq_eq_false_iff_ne.mpr h2
    unfold OpenAIProvider.parseStreamChunk
    rw [e1, e2, hst, hpr]
    simp
  · intro jp data h1 h2 h3
    exact claim_C4.2.2 jp data h1 h2 h3
  · intro jp data h
    unfold OpenAIProvider.parseStreamChunk
    simp [h]

/-- Witness for C5 on concrete frames: a whitespace frame for the Responses
provider, a vendor status comment and a blank frame for the Completions
provider. -/
theorem claim_C5_witness :
    OpenAIResponsesProvider.parseStreamChunk (fun _ => none) "  " = none ∧
    OpenAIProvider.parseStreamChunk (fun _ => none) ": X PROCESSING" = none ∧
    OpenAIProvider.parseStreamChunk (fun _ => none) " " =
      some { content := .str "", done := true } :=
  ⟨claim_C5.1 (fun _ => none) "  " (by decide),
   claim_C5.2.2.1 (fun _ => none) ": X PROCESSING" (by decide) (by decide) (by decide)
     (by decide),
   claim_C5.2.2.2.2 (fun _ => none) " " (by decide)⟩

/-! ## Claims about configuration checks and role normalization -/

/-- C6 counterexample: with a base URL configured but the API key absent, the
Responses adapter's `callAPI` does not fail with a configuration error — it
issues the network request, rendering the missing key into the authorization
header as the text `undefined`. -/
theorem claim_C6_cex :
    OpenAIResponsesProvider.callAPIPrepare { baseUrl := some "https://host", apiKey := none }
        "m" =
      .ok { apiUrl := "https://host/v1/responses", timeoutMs := 300000,
            authHeader := "Bearer undefined" } := rfl

/-- C6 (amended): both adapters fail with the configuration error before any
network request exactly when the base URL is absent or empty; the API key is
never checked — with a truthy base URL the request is always issued, whatever
the key. -/
theorem claim_C6 :
    (∀ (oracle : Nat → HttpResponse) (conv : List Attachment → List MessageContent)
        (modelId : String) (config : ProviderConfig) (instanceParam : ParamName)
        (messages : List ChatMessage) (stream : Bool) (params : Option APICallParams),
        optStrTruthy config.baseUrl = false →
        OpenAIProvider.callAPI oracle conv modelId config instanceParam messages stream
            params = .error "API URL 未配置") ∧
    (∀ (config : ProviderConfig) (modelId : String),
        optStrTruthy config.baseUrl = false →
        OpenAIResponsesProvider.callAPIPrepare config modelId = .error "API URL 未配置") ∧
    (∀ (oracle : Nat → HttpResponse) (conv : List Attachment → List MessageContent)
        (modelId : String) (config : ProviderConfig) (instanceParam : ParamName)
        (messages : List ChatMessage) (stream : Bool) (params : Option APICallParams),
        optStrTruthy config.baseUrl = true →
        (OpenAIProvider.callAPI oracle conv modelId config instanceParam messages stream
            params).isOk = true) ∧
    (∀ (config : ProviderConfig) (modelId : String),
        optStrTruthy config.baseUrl = true →
        (OpenAIResponsesProvider.callAPIPrepare config modelId).isOk = true) := by
  refine ⟨?_, ?_, ?_, ?_⟩
  · intro oracle conv modelId config instanceParam messages stream params h
    unfold OpenAIProvider.callAPI
    simp [h]
  · intro config modelId h
    unfold OpenAIResponsesProvider.callAPIPrepare
    simp [h]
  · intro oracle conv modelId config instanceParam messages stream params h
    unfold OpenAIProvider.callAPI
    simp [h, Except.isOk, Except.toBool]
  · intro config modelId h
    unfold OpenAIResponsesProvider.callAPIPrepare
    simp [h, Except.isOk, Except.toBool]

/-- Witness for C6: a missing base URL is rejected, a present base URL with a
missing key is accepted. -/
theorem claim_C6_witness :
    OpenAIResponsesProvider.callAPIPrepare { baseUrl := none, apiKey := some "k" } "m" =
      .error "API URL 未配置" ∧
    (OpenAIResponsesProvider.callAPIPrepare { baseUrl := some "https://host", apiKey := none }
        "m").isOk = true :=
  ⟨claim_C6.2.1 { baseUrl := none, apiKey := some "k" } "m" rfl,
   claim_C6.2.2.2 { baseUrl := some "https://host", apiKey := none } "m" rfl⟩

/-- C7 counterexample: the Completions adapter's message encoding copies the
role field verbatim, so an input message with role `model` produces a request
body whose message role is still `model` — no adapter-side normalization
happens there. -/
theorem claim_C7_cex :
    ((OpenAIProvider.buildRequestBody (fun _ => []) "m"
        [{ role := "model", content := .str "hi" }] false none .max_tokens).messages.map
      (fun m => m.role)) = ["model"] := rfl

/-- C7 (amended): the drawing service's `buildMessages` does normalize role
`model` to `assistant` (its output never contains a `model` role), but
`OpenAIProvider.buildRequestBody` copies input roles through unchanged, so its
body carries role `model` exactly when the input does. -/
theorem claim_C7 :
    (∀ (history : List OpenAIDrawingService.DrawingMessage) (sysPrompt : Option String),
        ∀ m ∈ OpenAIDrawingService.buildMessages history sysPrompt, m.role ≠ "model") ∧
    (∀ (conv : List Attachment → List MessageContent) (modelId : String)
        (msgs : List ChatMessage) (stream : Bool) (params : Option APICallParams)
        (p : ParamName),
        (OpenAIProvider.buildRequestBody conv modelId msgs stream params p).messages.map
            (fun m => m.role) =
          msgs.map (fun m => m.role)) := by
  constructor
  · intro history sysPrompt m hm
    have hstep : ∀ (a : OpenAIDrawingService.DrawingMessage),
        OpenAIDrawingService.encodeDrawingMessage a = some m → m.role ≠ "model" := by
      intro a hfa
      unfold OpenAIDrawingService.encodeDrawingMessage at hfa
      simp only [] at hfa
      split at hfa
      · exact absurd hfa (by simp)
      · rw [Option.some_inj] at hfa
        subst hfa
        by_cases hrole : (a.role == "model") = true
        · simp [hrole]
        · have hfalse : (a.role == "model") = false := by
            rw [Bool.not_eq_true] at hrole
            exact hrole
          simp only [hfalse, Bool.false_eq_true, if_false]
          exact beq_eq_false_iff_ne.mp hfalse
    unfold OpenAIDrawingService.buildMessages at hm
    rw [List.mem_append] at hm
    have hhead : ∀ (c : Bool) (x : OpenAIDrawingService.OpenAIChatMessage),
        m ∈ (if c = true then [x] else []) → m = x := by
      intro c x h
      cases c
      · simp at h
      · simpa using h
    rcases hm with hm | hm
    · have := hhead _ _ hm
      rw [this]
      show ("system" : String) ≠ "model"
      decide
    · rw [List.mem_filterMap] at hm
      obtain ⟨a, -, hfa⟩ := hm
      exact hstep a hfa
  · intro conv modelId msgs stream params p
    unfold OpenAIProvider.buildRequestBody
    simp only [List.map_map]
    apply List.map_congr_left
    intro a _
    by_cases h : OpenAIProvider.hasMultimodalContent a <;> simp [h]

/-- Witness for C7: the normalized message produced from a `model`-role
drawing message indeed has role `assistant`, not `model`. -/
theorem claim_C7_witness :
    ({ role := "assistant", content := .str "hi" } :
        OpenAIDrawingService.OpenAIChatMessage).role ≠ "model" :=
  claim_C7.1 [{ role := "model", parts := [{ text := some "hi" }] }] none
    { role := "assistant", content := .str "hi" } (by decide)

/-! ## Claims about mergeSystemMessages -/

theorem mergeSystemMessages_no_system (msgs : List ChatMessage) :
    ∀ m ∈ OpenAIProvider.mergeSystemMessages msgs, (m.role == "system") = false := by
  have hfil : ∀ m ∈ msgs.filter (fun m => m.role != "system"),
      (m.role == "system") = false := by
    intro m hm
    have := (List.mem_filter.mp hm).2
    simpa [bne] using this
  intro m hm
  unfold OpenAIProvider.mergeSystemMessages at hm
  simp only at hm
  split at hm
  · next hempty =>
      rw [List.isEmpty_iff, List.filter_eq_nil_iff] at hempty
      have := hempty m hm
      simpa using this
  · split at hm
    · exact hfil m hm
    · split at hm
      · next _heq =>
          simp only [List.mem_singleton] at hm
          subst hm
          rfl
      · next first rest heq =>
          split at hm
          · rcases List.mem_cons.mp hm with h | h
            · subst h; rfl
            · exact hfil m h
          · rcases List.mem_cons.mp hm with h | h
            · subst h
              next hfu =>
                simp only [bne, Bool.not_eq_true'] at hfu
                have : first.role = "user" := by simpa using hfu
                simp [this]
            · exact hfil m (heq ▸ List.mem_cons_of_mem first h)

/-- C3 counterexample: for a system message whose text is a single space
followed by a user message with empty text, the trim inside the merge step
deletes the system text's whitespace — the merged conversation is the single
user message `"System:"`, and the joined system text `" "` does not occur in
it verbatim. -/
theorem claim_C3_cex :
    OpenAIProvider.systemTextOf
        [{ role := "system", content := .str " " }, { role := "user", content := .str "" }] =
      " " ∧
    OpenAIProvider.mergeSystemMessages
        [{ role := "system", content := .str " " }, { role := "user", content := .str "" }] =
      [{ role := "user", content := .str "System:" }] ∧
    strIncludes "System:"
      (OpenAIProvider.systemTextOf
        [{ role := "system", content := .str " " }, { role := "user", content := .str "" }]) =
      false := by
  refine ⟨by decide, by decide, by decide⟩

/-- C3 (amended): for every message list with at least one system message,
`mergeSystemMessages` returns a list with zero system-role messages; and
whenever the blank-line-joined system text is non-empty and does not end in a
whitespace character (so the trim in the merge step cannot eat into it), that
text occurs verbatim in the string content of the first resulting message. -/
theorem claim_C3 (msgs : List ChatMessage)
    (hs : msgs.any (fun m => m.role == "system") = true) :
    (∀ m ∈ OpenAIProvider.mergeSystemMessages msgs, m.role ≠ "system") ∧
    (OpenAIProvider.systemTextOf msgs ≠ "" →
      endsInWhitespace (OpenAIProvider.systemTextOf msgs) = false →
      ∃ (first : ChatMessage) (rest : List ChatMessage),
        OpenAIProvider.mergeSystemMessages msgs = first :: rest ∧
        ∃ s : String, first.content = .str s ∧
          strIncludes s (OpenAIProvider.systemTextOf msgs) = true) := by
  constructor
  · intro m hm
    have := mergeSystemMessages_no_system msgs m hm
    exact beq_eq_false_iff_ne.mp this
  · intro ht hw
    have hd : (OpenAIProvider.systemTextOf msgs).data ≠ [] := by
      intro h0
      exact ht (String.ext h0)
    obtain ⟨mid, c, hsplit, hc⟩ :
        ∃ (mid : List Char) (c : Char),
          (OpenAIProvider.systemTextOf msgs).data = mid ++ [c] ∧ c.isWhitespace = false := by
      refine ⟨(OpenAIProvider.systemTextOf msgs).data.dropLast,
        (OpenAIProvider.systemTextOf msgs).data.getLast hd,
        (List.dropLast_append_getLast hd).symm, ?_⟩
      unfold endsInWhitespace at hw
      rw [List.getLast?_eq_getLast _ hd] at hw
      simpa using hw
    unfold OpenAIProvider.mergeSystemMessages
    simp only
    split
    · next hempty =>
        exfalso
        rw [List.isEmpty_iff, List.filter_eq_nil_iff] at hempty
        rw [List.any_eq_true] at hs
        obtain ⟨x, hx, hxr⟩ := hs
        exact hempty x hx hxr
    · split
      · next hemptytext =>
          exact absurd (by simpa using hemptytext) ht
      · split
        · next _heq =>
            refine ⟨_, [], rfl, "System:\n" ++ OpenAIProvider.systemTextOf msgs, rfl, ?_⟩
            unfold strIncludes
            rw [String.data_append]
            simpa using
              hasInfixChars_middle (OpenAIProvider.systemTextOf msgs).data "System:\n".data []
        · next first rest _heq =>
            split
            · refine ⟨_, _, rfl, "System:\n" ++ OpenAIProvider.systemTextOf msgs, rfl, ?_⟩
              unfold strIncludes
              rw [String.data_append]
              simpa using
                hasInfixChars_middle (OpenAIProvider.systemTextOf msgs).data "System:\n".data []
            · refine ⟨_, _, rfl,
                jsTrim ("System:\n" ++ OpenAIProvider.systemTextOf msgs ++ "\n\n" ++
                  OpenAIProvider.stringifyMessageContent first), rfl, ?_⟩
              have hA : ("System:\n" : String).data = 'S' :: "ystem:\n".data := rfl
              have hform : ("System:\n" ++ OpenAIProvider.systemTextOf msgs ++ "\n\n" ++
                  OpenAIProvider.stringifyMessageContent first).data =
                  'S' :: ("ystem:\n".data ++ (mid ++ [c]) ++
                    ("\n\n".data ++ (OpenAIProvider.stringifyMessageContent first).data)) := by
                rw [String.data_append, String.data_append, String.data_append, hA, hsplit]
                simp [List.append_assoc]
              show hasInfixChars (OpenAIProvider.systemTextOf msgs).data
                (trimChars ("System:\n" ++ OpenAIProvider.systemTextOf msgs ++ "\n\n" ++
                  OpenAIProvider.stringifyMessageContent first).data) = true
              rw [hform]
              rw [trimChars_split 'S' c "ystem:\n".data mid
                ("\n\n".data ++ (OpenAIProvider.stringifyMessageContent first).data)
                (by decide) hc]
              rw [hsplit]
              have hre : ('S' :: ("ystem:\n".data ++ mid)) ++ c ::
                  ((("\n\n".data ++
                      (OpenAIProvider.stringifyMessageContent first).data).reverse.dropWhile
                    Char.isWhitespace).reverse) =
                  ('S' :: "ystem:\n".data) ++ (mid ++ [c]) ++
                  ((("\n\n".data ++
                      (OpenAIProvider.stringifyMessageContent first).data).reverse.dropWhile
                    Char.isWhitespace).reverse) := by
                simp [List.append_assoc]
              rw [hre]
              exact hasInfixChars_middle _ _ _

/-- Witness for C3 on a concrete conversation: one system and one user
message with well-behaved text. -/
theorem claim_C3_witness :
    (∀ m ∈ OpenAIProvider.mergeSystemMessages
        [{ role := "system", content := .str "sys" }, { role := "user", content := .str "hi" }],
      m.role ≠ "system") ∧
    (∃ (first : ChatMessage) (rest : List ChatMessage),
      OpenAIProvider.mergeSystemMessages
          [{ role := "system", content := .str "sys" },
           { role := "user", content := .str "hi" }] = first :: rest ∧
      ∃ s : String, first.content = .str s ∧
        strIncludes s (OpenAIProvider.systemTextOf
          [{ role := "system", content := .str "sys" },
           { role := "user", content := .str "hi" }]) = true) :=
  ⟨(claim_C3 _ (by decide)).1,
   (claim_C3 _ (by decide)).2 (by decide) (by decide)⟩

/-! ## Lemmas about the retry loop -/

theorem callAPILoop_ok (ctx : OpenAIProvider.CallCtx) (n : Nat) (p : ParamName)
    (m : List ChatMessage) (f : ParamName) (h : (ctx.oracle n).ok = true) :
    OpenAIProvider.callAPILoop ctx n p m f =
      { requests := [OpenAIProvider.buildBody ctx p m], outcome := .ok (ctx.oracle n),
        finalParam := p } := by
  conv_lhs => rw [OpenAIProvider.callAPILoop]
  simp [h]

theorem callAPILoop_err (ctx : OpenAIProvider.CallCtx) (n : Nat) (p : ParamName)
    (m : List ChatMessage) (f : ParamName) (hok : (ctx.oracle n).ok = false)
    (h1 : OpenAIProvider.shouldRetryWithCompletionTokens (ctx.oracle n).json p = false)
    (h2 : (if ctx.useResponsesApi then
            OpenAIProvider.shouldRetryWithoutInstructions (ctx.oracle n).json m
          else OpenAIProvider.shouldRetryWithoutSystemRole (ctx.oracle n).json m) = false) :
    OpenAIProvider.callAPILoop ctx n p m f =
      { requests := [OpenAIProvider.buildBody ctx p m],
        outcome := .error (ctx.oracle n).json, finalParam := f } := by
  conv_lhs => rw [OpenAIProvider.callAPILoop]
  by_cases hu : ctx.useResponsesApi = true
  · rw [if_pos hu] at h2
    simp [hok, h1, hu, h2]
  · have hu' : ctx.useResponsesApi = false := by rwa [Bool.not_eq_true] at hu
    rw [if_neg hu] at h2
    simp [hok, h1, hu', h2]

theorem callAPILoop_retryParam (ctx : OpenAIProvider.CallCtx) (n : Nat) (p : ParamName)
    (m : List ChatMessage) (f : ParamName) (hok : (ctx.oracle n).ok = false)
    (h1 : OpenAIProvider.shouldRetryWithCompletionTokens (ctx.oracle n).json p = true) :
    OpenAIProvider.callAPILoop ctx n p m f =
      { requests := OpenAIProvider.buildBody ctx p m ::
          (OpenAIProvider.callAPILoop ctx (n + 1) .max_completion_tokens m
            .max_completion_tokens).requests,
        outcome := (OpenAIProvider.callAPILoop ctx (n + 1) .max_completion_tokens m
          .max_completion_tokens).outcome,
        finalParam := (OpenAIProvider.callAPILoop ctx (n + 1) .max_completion_tokens m
          .max_completion_tokens).finalParam } := by
  conv_lhs => rw [OpenAIProvider.callAPILoop]
  simp [hok, h1]

theorem callAPILoop_retrySys (ctx : OpenAIProvider.CallCtx) (n : Nat) (p : ParamName)
    (m : List ChatMessage) (f : ParamName) (hok : (ctx.oracle n).ok = false)
    (h1 : OpenAIProvider.shouldRetryWithCompletionTokens (ctx.oracle n).json p = false)
    (h2 : (if ctx.useResponsesApi then
            OpenAIProvider.shouldRetryWithoutInstructions (ctx.oracle n).json m
          else OpenAIProvider.shouldRetryWithoutSystemRole (ctx.oracle n).json m) = true) :
    OpenAIProvider.callAPILoop ctx n p m f =
      { requests := OpenAIProvider.buildBody ctx p m ::
          (OpenAIProvider.callAPILoop ctx (n + 1) p
            (OpenAIProvider.mergeSystemMessages m) f).requests,
        outcome := (OpenAIProvider.callAPILoop ctx (n + 1) p
          (OpenAIProvider.mergeSystemMessages m) f).outcome,
        finalParam := (OpenAIProvider.callAPILoop ctx (n + 1) p
          (OpenAIProvider.mergeSystemMessages m) f).finalParam } := by
  conv_lhs => rw [OpenAIProvider.callAPILoop]
  by_cases hu : ctx.useResponsesApi = true
  · rw [if_pos hu] at h2
    simp [hok, h1, hu, h2]
  · have hu' : ctx.useResponsesApi = false := by rwa [Bool.not_eq_true] at hu
    rw [if_neg hu] at h2
    simp [hok, h1, hu', h2]

theorem shouldRetryCT_mct (e : Json) :
    OpenAIProvider.shouldRetryWithCompletionTokens e .max_completion_tokens = false := by
  unfold OpenAIProvider.shouldRetryWithCompletionTokens
  simp

theorem shouldRetryCT_param (e : Json) (p : ParamName)
    (h : OpenAIProvider.shouldRetryWithCompletionTokens e p = true) : p = .max_tokens := by
  cases p
  · rfl
  · rw [shouldRetryCT_mct] at h
    exact absurd h (by simp)

theorem shouldRetryWSR_noSys (e : Json) (m : List ChatMessage)
    (hm : m.any (fun x => x.role == "system") = false) :
    OpenAIProvider.shouldRetryWithoutSystemRole e m = false := by
  unfold OpenAIProvider.shouldRetryWithoutSystemRole
  simp [hm]

theorem shouldRetryWI_noSys (e : Json) (m : List ChatMessage)
    (hm : m.any (fun x => x.role == "system") = false) :
    OpenAIProvider.shouldRetryWithoutInstructions e m = false := by
  unfold OpenAIProvider.shouldRetryWithoutInstructions
  simp [hm]

theorem mergeSystemMessages_any (msgs : List ChatMessage) :
    ((OpenAIProvider.mergeSystemMessages msgs).any fun m => m.role == "system") = false := by
  apply Bool.eq_false_iff.mpr
  intro hx
  rw [List.any_eq_true] at hx
  obtain ⟨m, hm, hrole⟩ := hx
  rw [mergeSystemMessages_no_system msgs m hm] at hrole
  exact Bool.false_ne_true hrole

theorem sysRetryCond_noSys (ctx : OpenAIProvider.CallCtx) (e : Json) (m : List ChatMessage)
    (hm : m.any (fun x => x.role == "system") = false) :
    (if ctx.useResponsesApi then OpenAIProvider.shouldRetryWithoutInstructions e m
     else OpenAIProvider.shouldRetryWithoutSystemRole e m) = false := by
  by_cases hu : ctx.useResponsesApi = true
  · rw [if_pos hu]
    exact shouldRetryWI_noSys e m hm
  · rw [if_neg hu]
    exact shouldRetryWSR_noSys e m hm

theorem buildBody_tokensField (ctx : OpenAIProvider.CallCtx) (p : ParamName)
    (m : List ChatMessage) (hura : ctx.useResponsesApi = false) :
    (OpenAIProvider.buildBody ctx p m).tokensField = some p := by
  unfold OpenAIProvider.buildBody
  rw [if_neg (by simp [hura])]
  rfl

theorem callAPILoop_noSysMCT (ctx : OpenAIProvider.CallCtx) (n : Nat) (m : List ChatMessage)
    (f : ParamName) (hm : m.any (fun x => x.role == "system") = false) :
    (OpenAIProvider.callAPILoop ctx n .max_completion_tokens m f).requests =
      [OpenAIProvider.buildBody ctx .max_completion_tokens m] ∧
    ((OpenAIProvider.callAPILoop ctx n .max_completion_tokens m f).finalParam =
        .max_completion_tokens ∨
      (OpenAIProvider.callAPILoop ctx n .max_completion_tokens m f).finalParam = f) := by
  by_cases hok : (ctx.oracle n).ok = true
  · rw [callAPILoop_ok ctx n _ m f hok]
    exact ⟨rfl, Or.inl rfl⟩
  · have hok' : (ctx.oracle n).ok = false := by rwa [Bool.not_eq_true] at hok
    rw [callAPILoop_err ctx n _ m f hok' (shouldRetryCT_mct (ctx.oracle n).json)
      (sysRetryCond_noSys ctx (ctx.oracle n).json m hm)]
    exact ⟨rfl, Or.inr rfl⟩

theorem callAPILoop_mct (ctx : OpenAIProvider.CallCtx) (n : Nat) (m : List ChatMessage) :
    (OpenAIProvider.callAPILoop ctx n .max_completion_tokens m
        .max_completion_tokens).finalParam = .max_completion_tokens ∧
    (OpenAIProvider.callAPILoop ctx n .max_completion_tokens m
        .max_completion_tokens).requests.length ≤ 2 ∧
    (ctx.useResponsesApi = false →
      ∀ b ∈ (OpenAIProvider.callAPILoop ctx n .max_completion_tokens m
          .max_completion_tokens).requests,
        b.tokensField = some .max_completion_tokens) := by
  by_cases hok : (ctx.oracle n).ok = true
  · rw [callAPILoop_ok ctx n _ m _ hok]
    refine ⟨rfl, by simp, ?_⟩
    intro hura b hb
    rw [List.mem_singleton] at hb
    subst hb
    exact buildBody_tokensField ctx _ m hura
  · have hok' : (ctx.oracle n).ok = false := by rwa [Bool.not_eq_true] at hok
    have h1 := shouldRetryCT_mct (ctx.oracle n).json
    by_cases h2 : (if ctx.useResponsesApi then
        OpenAIProvider.shouldRetryWithoutInstructions (ctx.oracle n).json m
      else OpenAIProvider.shouldRetryWithoutSystemRole (ctx.oracle n).json m) = true
    · rw [callAPILoop_retrySys ctx n _ m _ hok' h1 h2]
      obtain ⟨hreq, hfin⟩ := callAPILoop_noSysMCT ctx (n + 1)
        (OpenAIProvider.mergeSystemMessages m) .max_completion_tokens
        (mergeSystemMessages_any m)
      refine ⟨?_, ?_, ?_⟩
      · rcases hfin with h | h <;> simpa using h
      · simp [hreq]
      · intro hura b hb
        simp only [List.mem_cons] at hb
        rcases hb with hb | hb
        · subst hb
          exact buildBody_tokensField ctx _ m hura
        · rw [hreq, List.mem_singleton] at hb
          subst hb
          exact buildBody_tokensField ctx _ _ hura
    · have h2' : (if ctx.useResponsesApi then
          OpenAIProvider.shouldRetryWithoutInstructions (ctx.oracle n).json m
        else OpenAIProvider.shouldRetryWithoutSystemRole (ctx.oracle n).json m) = false := by
        rwa [Bool.not_eq_true] at h2
      rw [callAPILoop_err ctx n _ m _ hok' h1 h2']
      refine ⟨rfl, by simp, ?_⟩
      intro hura b hb
      rw [List.mem_singleton] at hb
      subst hb
      exact buildBody_tokensField ctx _ m hura

theorem callAPILoop_noSysLen (ctx : OpenAIProvider.CallCtx) (n : Nat) (p : ParamName)
    (m : List ChatMessage) (f : ParamName)
    (hm : m.any (fun x => x.role == "system") = false) :
    (OpenAIProvider.callAPILoop ctx n p m f).requests.length ≤ 2 := by
  by_cases hok : (ctx.oracle n).ok = true
  · rw [callAPILoop_ok ctx n p m f hok]
    simp
  · have hok' : (ctx.oracle n).ok = false := by rwa [Bool.not_eq_true] at hok
    by_cases h1 : OpenAIProvider.shouldRetryWithCompletionTokens (ctx.oracle n).json p = true
    · rw [callAPILoop_retryParam ctx n p m f hok' h1]
      obtain ⟨hreq, -⟩ := callAPILoop_noSysMCT ctx (n + 1) m .max_completion_tokens hm
      simp [hreq]
    · have h1' : OpenAIProvider.shouldRetryWithCompletionTokens (ctx.oracle n).json p
          = false := by rwa [Bool.not_eq_true] at h1
      rw [callAPILoop_err ctx n p m f hok' h1'
        (sysRetryCond_noSys ctx (ctx.oracle n).json m hm)]
      simp

theorem callAPILoop_len_pos (ctx : OpenAIProvider.CallCtx) (n : Nat) (p : ParamName)
    (m : List ChatMessage) (f : ParamName) :
    1 ≤ (OpenAIProvider.callAPILoop ctx n p m f).requests.length := by
  by_cases hok : (ctx.oracle n).ok = true
  · rw [callAPILoop_ok ctx n p m f hok]
    simp
  · have hok' : (ctx.oracle n).ok = false := by rwa [Bool.not_eq_true] at hok
    by_cases h1 : OpenAIProvider.shouldRetryWithCompletionTokens (ctx.oracle n).json p = true
    · rw [callAPILoop_retryParam ctx n p m f hok' h1]
      simp
    · have h1' : OpenAIProvider.shouldRetryWithCompletionTokens (ctx.oracle n).json p
          = false := by rwa [Bool.not_eq_true] at h1
      by_cases h2 : (if ctx.useResponsesApi then
          OpenAIProvider.shouldRetryWithoutInstructions (ctx.oracle n).json m
        else OpenAIProvider.shouldRetryWithoutSystemRole (ctx.oracle n).json m) = true
      · rw [callAPILoop_retrySys ctx n p m f hok' h1' h2]
        simp
      · have h2' : (if ctx.useResponsesApi then
            OpenAIProvider.shouldRetryWithoutInstructions (ctx.oracle n).json m
          else OpenAIProvider.shouldRetryWithoutSystemRole (ctx.oracle n).json m) = false := by
          rwa [Bool.not_eq_true] at h2
        rw [callAPILoop_err ctx n p m f hok' h1' h2']
        simp

theorem shouldRetryCT_of_signature (j e : Json) (mstr : String)
    (herr : j.getField "error" = some e)
    (hmsg : e.getField "message" = some (.str mstr))
    (hcode : e.getField "code" = some (.str "unsupported_parameter"))
    (hparam : e.getField "param" = none ∨ e.getField "param" = some (.str "max_tokens"))
    (hm1 : strIncludes (jsToLower mstr) "max_tokens" = true)
    (hm2 : strIncludes (jsToLower mstr) "max_completion_tokens" = true) :
    OpenAIProvider.shouldRetryWithCompletionTokens j .max_tokens = true := by
  have htr : e.truthy = true := by
    cases e with
    | obj fields => rfl
    | null => simp [Json.getField] at hcode
    | bool b => simp [Json.getField] at hcode
    | num n => simp [Json.getField] at hcode
    | str s => simp [Json.getField] at hcode
    | arr xs => simp [Json.getField] at hcode
  have hne : jsToLower mstr ≠ "" := by
    intro h0
    rw [h0] at hm1
    exact absurd hm1 (by decide)
  unfold OpenAIProvider.shouldRetryWithCompletionTokens
  rcases hparam with hp | hp <;>
    simp [herr, htr, hmsg, hcode, hm1, hm2, hp, beq_eq_false_iff_ne.mpr hne]

/-! ## Claims about the retry loop -/

/-- C1: starting from an instance whose current parameter name is
`max_tokens`, when the first attempt fails with the "unsupported parameter"
signature (code `unsupported_parameter`, `param` absent or `max_tokens`, and
a message mentioning both `max_tokens` and `max_completion_tokens`), the loop
retries: at least one more request goes out, the first request carried
`max_tokens`, every retried request carries `max_completion_tokens` instead,
the persisted field ends as `max_completion_tokens` whatever happens later,
and when the second attempt succeeds the call comprises exactly the original
attempt plus one retry. -/
theorem claim_C1 (ctx : OpenAIProvider.CallCtx) (msgs : List ChatMessage) (e : Json)
    (mstr : String)
    (hURA : ctx.useResponsesApi = false)
    (hok0 : (ctx.oracle 0).ok = false)
    (herr : (ctx.oracle 0).json.getField "error" = some e)
    (hmsg : e.getField "message" = some (.str mstr))
    (hcode : e.getField "code" = some (.str "unsupported_parameter"))
    (hparam : e.getField "param" = none ∨ e.getField "param" = some (.str "max_tokens"))
    (hm1 : strIncludes (jsToLower mstr) "max_tokens" = true)
    (hm2 : strIncludes (jsToLower mstr) "max_completion_tokens" = true) :
    2 ≤ (OpenAIProvider.callAPILoop ctx 0 .max_tokens msgs .max_tokens).requests.length ∧
    ((OpenAIProvider.callAPILoop ctx 0 .max_tokens msgs .max_tokens).requests.map
        OpenAIProvider.RequestBody.tokensField).head? = some (some .max_tokens) ∧
    (∀ b ∈ (OpenAIProvider.callAPILoop ctx 0 .max_tokens msgs .max_tokens).requests.tail,
        b.tokensField = some .max_completion_tokens) ∧
    (OpenAIProvider.callAPILoop ctx 0 .max_tokens msgs .max_tokens).finalParam =
      .max_completion_tokens ∧
    ((ctx.oracle 1).ok = true →
      (OpenAIProvider.callAPILoop ctx 0 .max_tokens msgs .max_tokens).requests.length = 2) := by
  have hsr := shouldRetryCT_of_signature (ctx.oracle 0).json e mstr herr hmsg hcode hparam
    hm1 hm2
  rw [callAPILoop_retryParam ctx 0 _ msgs _ hok0 hsr]
  simp only [Nat.zero_add]
  obtain ⟨hfin, hlen, hfield⟩ := callAPILoop_mct ctx 1 msgs
  have hpos := callAPILoop_len_pos ctx 1 .max_completion_tokens msgs .max_completion_tokens
  refine ⟨?_, ?_, ?_, ?_, ?_⟩
  · simp only [List.length_cons]
    omega
  · simp [buildBody_tokensField ctx _ msgs hURA]
  · intro b hb
    simp only [List.tail_cons] at hb
    exact hfield hURA b hb
  · simpa using hfin
  · intro hok1
    rw [callAPILoop_ok ctx 1 _ msgs _ hok1]
    simp

/-- C2: the retry loop always issues at least one and at most three HTTP
attempts (each of the two recovery classes can fire at most once: the
parameter class needs the current name to still be `max_tokens` and switches
it, the role class needs a remaining system message and removes them all);
and an error response matching neither signature propagates immediately —
the loop ends after that single attempt with the error as outcome. -/
theorem claim_C2 (ctx : OpenAIProvider.CallCtx) (n : Nat) (p : ParamName)
    (m : List ChatMessage) (f : ParamName) :
    1 ≤ (OpenAIProvider.callAPILoop ctx n p m f).requests.length ∧
    (OpenAIProvider.callAPILoop ctx n p m f).requests.length ≤ 3 ∧
    ((ctx.oracle n).ok = false →
      OpenAIProvider.shouldRetryWithCompletionTokens (ctx.oracle n).json p = false →
      (if ctx.useResponsesApi then
          OpenAIProvider.shouldRetryWithoutInstructions (ctx.oracle n).json m
        else OpenAIProvider.shouldRetryWithoutSystemRole (ctx.oracle n).json m) = false →
      OpenAIProvider.callAPILoop ctx n p m f =
        { requests := [OpenAIProvider.buildBody ctx p m],
          outcome := .error (ctx.oracle n).json, finalParam := f }) := by
  refine ⟨callAPILoop_len_pos ctx n p m f, ?_, ?_⟩
  · by_cases hok : (ctx.oracle n).ok = true
    · rw [callAPILoop_ok ctx n p m f hok]
      simp
    · have hok' : (ctx.oracle n).ok = false := by rwa [Bool.not_eq_true] at hok
      by_cases h1 : OpenAIProvider.shouldRetryWithCompletionTokens (ctx.oracle n).json p = true
      · rw [callAPILoop_retryParam ctx n p m f hok' h1]
        obtain ⟨-, hlen, -⟩ := callAPILoop_mct ctx (n + 1) m
        dsimp only
        simp only [List.length_cons]
        omega
      · have h1' : OpenAIProvider.shouldRetryWithCompletionTokens (ctx.oracle n).json p
            = false := by rwa [Bool.not_eq_true] at h1
        by_cases h2 : (if ctx.useResponsesApi then
            OpenAIProvider.shouldRetryWithoutInstructions (ctx.oracle n).json m
          else OpenAIProvider.shouldRetryWithoutSystemRole (ctx.oracle n).json m) = true
        · rw [callAPILoop_retrySys ctx n p m f hok' h1' h2]
          have := callAPILoop_noSysLen ctx (n + 1) p (OpenAIProvider.mergeSystemMessages m) f
            (mergeSystemMessages_any m)
          dsimp only
          simp only [List.length_cons]
          omega
        · have h2' : (if ctx.useResponsesApi then
              OpenAIProvider.shouldRetryWithoutInstructions (ctx.oracle n).json m
            else OpenAIProvider.shouldRetryWithoutSystemRole (ctx.oracle n).json m) = false := by
            rwa [Bool.not_eq_true] at h2
          rw [callAPILoop_err ctx n p m f hok' h1' h2']
          simp
  · intro hok h1 h2
    exact callAPILoop_err ctx n p m f hok h1 h2

/-- Witness for C1: a concrete call whose first attempt fails with the
unsupported-parameter signature and whose second attempt succeeds retries
exactly once with the corrected parameter name. -/
theorem claim_C1_witness :
    let ctx : OpenAIProvider.CallCtx :=
      { oracle := fun n =>
          if n == 0 then
            { ok := false,
              json := Json.obj [("error", Json.obj
                [("code", Json.str "unsupported_parameter"),
                 ("message", Json.str
                   "Unsupported parameter: max_tokens is not supported with this model, use max_completion_tokens instead")])] }
          else { ok := true, json := Json.null }
        conv := fun _ => []
        modelId := "m"
        stream := false
        params := none
        useResponsesApi := false }
    2 ≤ (OpenAIProvider.callAPILoop ctx 0 .max_tokens [] .max_tokens).requests.length ∧
    ((OpenAIProvider.callAPILoop ctx 0 .max_tokens [] .max_tokens).requests.map
        OpenAIProvider.RequestBody.tokensField).head? = some (some .max_tokens) ∧
    (∀ b ∈ (OpenAIProvider.callAPILoop ctx 0 .max_tokens [] .max_tokens).requests.tail,
        b.tokensField = some .max_completion_tokens) ∧
    (OpenAIProvider.callAPILoop ctx 0 .max_tokens [] .max_tokens).finalParam =
      .max_completion_tokens ∧
    ((ctx.oracle 1).ok = true →
      (OpenAIProvider.callAPILoop ctx 0 .max_tokens [] .max_tokens).requests.length = 2) :=
  claim_C1 _ []
    (Json.obj
      [("code", Json.str "unsupported_parameter"),
       ("message", Json.str
         "Unsupported parameter: max_tokens is not supported with this model, use max_completion_tokens instead")])
    "Unsupported parameter: max_tokens is not supported with this model, use max_completion_tokens instead"
    rfl rfl rfl rfl rfl (Or.inl rfl) rfl rfl

/-- Witness for C2: a call whose only response is an error matching neither
retry signature ends after exactly one attempt with that error. -/
theorem claim_C2_witness :
    OpenAIProvider.callAPILoop
        { oracle := fun _ => { ok := false, json := Json.obj [] }, conv := fun _ => [],
          modelId := "m", stream := false, params := none, useResponsesApi := false }
        0 .max_tokens [] .max_tokens =
      { requests := [OpenAIProvider.buildBody
          { oracle := fun _ => { ok := false, json := Json.obj [] }, conv := fun _ => [],
            modelId := "m", stream := false, params := none, useResponsesApi := false }
          .max_tokens []],
        outcome := .error (Json.obj []), finalParam := .max_tokens } :=
  (claim_C2 _ 0 .max_tokens [] .max_tokens).2.2 rfl rfl rfl
